import Mathlib

/-!
Shallow embedding of the core of the kyua test-execution engine
(engine/results.cpp, engine/runner.cpp, engine/scheduler.cpp,
engine/test_case.cpp, engine/atf_iface/test_case.cpp), with proofs about
the raw-result parser, the status reconciler, the requirement gate, the
cleanup composition and the identifier ordering.

Strings are modelled as Lean `String`s (lists of characters); the byte-wise
C++ comparisons coincide with the character-wise ones on the ASCII data the
engine manipulates.  `std::string::size_type` arithmetic is modelled on `Nat`
with the explicit constant `npos = 2^64 - 1` and a `% 2^64` at the one place
where the source increments a possibly-`npos` value.  C++ exceptions escaping
a function are modelled with `Except`.
-/

namespace Kyua

/-! ## Character and decimal-rendering helpers -/

/-- The characters accepted for a status keyword:
`find_first_not_of("abcdefghijklmnopqrstuvwxyz_")` in `results::parse`. -/
def isStatusChar (c : Char) : Bool :=
  ('a' ≤ c && c ≤ 'z') || c = '_'

/-- Standard C++ stream whitespace, skipped by `operator>>` on an
`istringstream` (space, tab, newline, vertical tab, form feed, return). -/
def isStreamSpace (c : Char) : Bool :=
  c = ' ' || c = '\t' || c = '\n' || c = Char.ofNat 11 || c = Char.ofNat 12 ||
  c = '\r'

/-- Decimal digit test. -/
def isDigitChar (c : Char) : Bool :=
  '0' ≤ c && c ≤ '9'

/-- The character for a decimal digit value. -/
def digitChar (d : Nat) : Char :=
  match d with
  | 0 => '0' | 1 => '1' | 2 => '2' | 3 => '3' | 4 => '4'
  | 5 => '5' | 6 => '6' | 7 => '7' | 8 => '8' | _ => '9'

/-- The value of a decimal digit character. -/
def digitVal (c : Char) : Nat :=
  c.toNat - 48

/-- Decimal rendering of a natural number (most significant digit first),
with explicit fuel so that the definition is structural and computes by
`decide`/`rfl`.  The fuel `n + 1` always suffices because each step divides
the argument by ten. -/
def renderNatAux : Nat → Nat → List Char
  | 0, _ => []
  | fuel + 1, n =>
    if n < 10 then [digitChar n]
    else renderNatAux fuel (n / 10) ++ [digitChar (n % 10)]

/-- Decimal rendering of a natural number, as `printf("%d")` produces it. -/
def renderNat (n : Nat) : List Char :=
  renderNatAux (n + 1) n

/-- Decimal rendering of an integer, as `printf("%d")` produces it. -/
def renderInt (i : Int) : List Char :=
  if i < 0 then '-' :: renderNat (-i).toNat else renderNat i.toNat

/-- `renderInt` packaged as a `String`. -/
def intToString (i : Int) : String :=
  String.mk (renderInt i)

/-- Accumulate the value of a list of decimal digit characters. -/
def natFold (ds : List Char) : Nat :=
  ds.foldl (fun a c => a * 10 + digitVal c) 0

/-! ## Process termination status (utils::process::status) -/

/-- Result of `waitpid` as the engine sees it: `exited`/`signaled`, or
another state (stopped, …) for which both `exited()` and `signaled()` are
false. -/
inductive ProcStatus where
  | exited (code : Int)
  | signaled (signo : Int) (coredump : Bool)
  | unknown
  deriving DecidableEq, Repr

/-- `EXIT_SUCCESS` of `<cstdlib>`. -/
def EXIT_SUCCESS : Int := 0

/-- `EXIT_FAILURE` of `<cstdlib>` (1 on POSIX systems). -/
def EXIT_FAILURE : Int := 1

/-! ## Raw test results (engine/results.cpp class hierarchy) -/

/-- The tagged union of raw test results written by a test case and read
back by the engine (`results::broken`, `results::expected_death`, …). -/
inductive RawResult where
  | broken (reason : String)
  | expected_death (reason : String)
  | expected_exit (exit_status : Option Int) (reason : String)
  | expected_failure (reason : String)
  | expected_signal (signal_no : Option Int) (reason : String)
  | expected_timeout (reason : String)
  | failed (reason : String)
  | passed
  | skipped (reason : String)
  deriving DecidableEq, Repr

namespace RawResult

/-- `typeid(*raw_result) == typeid(broken)`. -/
def isBroken : RawResult → Bool
  | .broken _ => true
  | _ => false

/-- `typeid(*raw_result) == typeid(expected_timeout)`. -/
def isExpectedTimeout : RawResult → Bool
  | .expected_timeout _ => true
  | _ => false

/-- The `format()` virtual method of each `results::base_result` subclass. -/
def format : RawResult → String
  | .broken r => "broken: " ++ r
  | .expected_death r => "expected_death: " ++ r
  | .expected_exit none r => "expected_exit: " ++ r
  | .expected_exit (some k) r => "expected_exit(" ++ intToString k ++ "): " ++ r
  | .expected_failure r => "expected_failure: " ++ r
  | .expected_signal none r => "expected_signal: " ++ r
  | .expected_signal (some k) r => "expected_signal(" ++ intToString k ++ "): " ++ r
  | .expected_timeout r => "expected_timeout: " ++ r
  | .failed r => "failed: " ++ r
  | .passed => "passed"
  | .skipped r => "skipped: " ++ r

/-- The `good()` virtual method of each `results::base_result` subclass. -/
def good : RawResult → Bool
  | .broken _ => false
  | .failed _ => false
  | _ => true

end RawResult

/-- `format_status` of engine/results.cpp: renders a termination status for
the broken-result messages of `results::adjust`. -/
def format_status : ProcStatus → String
  | .exited code => "exited with code " ++ intToString code
  | .signaled signo core =>
      "received signal " ++ intToString signo ++
      (if core then " (core dumped)" else "")
  | .unknown => "terminated in an unknown manner"

/-- `results::adjust(raw_result, status, timed_out)` of engine/results.cpp:
reconciles a raw result against the termination status of the test program,
turning harness violations into `broken` results. -/
def adjust (raw : RawResult) (status : ProcStatus) (timed_out : Bool) :
    RawResult :=
  if raw.isBroken then raw
  else if timed_out then
    if raw.isExpectedTimeout then raw
    else .broken "Test case timed out"
  else
    match raw with
    | .expected_death _ => raw
    | .expected_exit exit_status _ =>
      match status with
      | .exited code =>
        match exit_status with
        | some want =>
          if want = code then raw
          else .broken ("Expected clean exit with code " ++ intToString want ++
                        " but got code " ++ intToString code)
        | none => raw
      | _ => .broken ("Expected clean exit but " ++ format_status status)
    | .expected_failure _ =>
      match status with
      | .exited code =>
        if code = EXIT_SUCCESS then raw
        else .broken ("Expected failure should have reported success but " ++
                      format_status status)
      | _ => .broken ("Expected failure should have reported success but " ++
                      format_status status)
    | .expected_signal signal_no _ =>
      match status with
      | .signaled signo _ =>
        match signal_no with
        | some want =>
          if want = signo then raw
          else .broken ("Expected signal " ++ intToString want ++ " but got " ++
                        intToString signo)
        | none => raw
      | _ => .broken ("Expected signal but " ++ format_status status)
    | .expected_timeout _ =>
      .broken ("Expected timeout but " ++ format_status status)
    | .failed _ =>
      match status with
      | .exited code =>
        if code = EXIT_FAILURE then raw
        else .broken ("Failed test case should have reported failure but " ++
                      format_status status)
      | _ => .broken ("Failed test case should have reported failure but " ++
                      format_status status)
    | .passed =>
      match status with
      | .exited code =>
        if code = EXIT_SUCCESS then raw
        else .broken ("Passed test case should have reported success but " ++
                      format_status status)
      | _ => .broken ("Passed test case should have reported success but " ++
                      format_status status)
    | .skipped _ =>
      match status with
      | .exited code =>
        if code = EXIT_SUCCESS then raw
        else .broken ("Skipped test case should have reported success but " ++
                      format_status status)
      | _ => .broken ("Skipped test case should have reported success but " ++
                      format_status status)
    | .broken _ => raw

/-! ## The raw-result parser (engine/results.cpp) -/

/-- C++ exceptions that can escape the parsing helpers:
`std::out_of_range` (from `std::string::substr` with `pos > size()`),
`engine::format_error` (the explicit `throw` in
`parse_with_reason_and_arg`), and the abort of a violated `PRE`
precondition. -/
inductive CppExc where
  | outOfRange
  | formatError
  | precondViolated
  deriving DecidableEq, Repr

/-- `std::string::npos` for a 64-bit `size_type`. -/
def npos : Nat := 2 ^ 64 - 1

/-- `std::string::substr(pos)`: throws `std::out_of_range` when
`pos > size()`, else the suffix from `pos`. -/
def cppSubstrFrom (s : List Char) (pos : Nat) : Except CppExc (List Char) :=
  if pos > s.length then .error .outOfRange else .ok (s.drop pos)

/-- `std::string::find_first_of(":(")`: the index of the first `':'` or
`'('`, or `npos`. -/
def findColonParen (s : List Char) : Nat :=
  match s.findIdx? (fun c => c = ':' || c = '(') with
  | some i => i
  | none => npos

/-- Index of the first occurrence of `pat` in `s`, scanning left to right. -/
def subIdx (pat : List Char) : List Char → Option Nat
  | [] => none
  | c :: t =>
    if (c :: t).take pat.length = pat then some 0
    else (subIdx pat t).map (· + 1)

/-- `std::string::find(pat, start)`: the index (`≥ start`) of the first
occurrence of `pat`, or `npos`. -/
def strFind (s pat : List Char) (start : Nat) : Nat :=
  match subIdx pat (s.drop start) with
  | some i => start + i
  | none => npos

/-- `getline` splitting: the first line of `s` and, when a newline was
found, the remainder after it (`none` when the input ended first). -/
def splitLine : List Char → List Char × Option (List Char)
  | [] => ([], none)
  | c :: rest =>
    if c = '\n' then ([], some rest)
    else
      let (l, r) := splitLine rest
      (c :: l, r)

theorem splitLine_some_length {s l r : List Char}
    (h : splitLine s = (l, some r)) : r.length < s.length := by
  induction s generalizing l r with
  | nil => simp [splitLine] at h
  | cons c t ih =>
    by_cases hc : c = '\n'
    · subst hc
      simp only [splitLine, if_pos rfl, Prod.mk.injEq, Option.some.injEq] at h
      obtain ⟨-, rfl⟩ := h
      simp
    · simp only [splitLine, hc, if_neg hc] at h
      rcases hsplit : splitLine t with ⟨l', r'⟩
      rw [hsplit] at h
      cases r' with
      | none => simp at h
      | some r'' =>
        simp only [Prod.mk.injEq, Option.some.injEq] at h
        obtain ⟨-, rfl⟩ := h
        have := ih hsplit
        simp only [List.length_cons]
        omega

/-- The magic separator `read_lines` inserts between merged lines. -/
def nlMark : List Char := '<' :: '<' :: 'N' :: 'E' :: 'W' :: 'L' :: 'I' ::
  'N' :: 'E' :: '>' :: '>' :: []

/-- The `do … while (input.good())` loop of `read_lines`, recursing on the
unread part of the stream (structurally, on explicit fuel: each iteration
strictly shortens the unread part, so `s.length + 1` units always
suffice).  A line terminated by a newline is accumulated and counted; a
final line without a newline is accumulated but, when it is the first
line, left uncounted (the source's `ret.first` stays 0). -/
def readLinesAux : Nat → List Char → Nat → List Char → Nat × List Char
  | 0, _, count, acc => (count, acc)
  | fuel + 1, s, count, acc =>
    match splitLine s with
    | (l, some r) =>
      readLinesAux fuel r (count + 1)
        (if count = 0 then l else acc ++ nlMark ++ l)
    | (l, none) =>
      if l.isEmpty then (count, acc)
      else if count = 0 then (count, l)
      else (count + 1, acc ++ nlMark ++ l)

/-- `read_lines` of engine/results.cpp: the number of lines read and their
`<<NEWLINE>>`-joined contents. -/
def read_lines (s : List Char) : Nat × List Char :=
  readLinesAux (s.length + 1) s 0 []

/-- `INT_MAX` for a 32-bit `int`. -/
def INT_MAX : Int := 2147483647

/-- `INT_MIN` for a 32-bit `int`. -/
def INT_MIN : Int := -2147483648

/-- Clamp to the range of `int`, as C++11 numeric extraction does on
overflow. -/
def clampInt (v : Int) : Int :=
  if v > INT_MAX then INT_MAX else if v < INT_MIN then INT_MIN else v

/-- `parse_int` of engine/results.cpp: `istringstream >> int` followed by
the check `!iss.eof() || (!iss.eof() && !iss.good())`, which accepts the
extraction exactly when the stream ended during it.  C++11 semantics:
leading stream whitespace is skipped, an optional sign and digits are
consumed, a failed conversion that exhausts the stream still stores 0, an
overflowing one stores the clamped value; in every such case `eof()` holds
and the (possibly meaningless) value is returned.  `parse_int_run` is the
digit-accumulation tail shared by the signed and unsigned paths. -/
def parse_int_run (sign : Int) (digitsPart : List Char) : Option Int :=
  let ds := digitsPart.takeWhile isDigitChar
  let after := digitsPart.drop ds.length
  if after.isEmpty then
    if ds.isEmpty then some 0
    else some (clampInt (sign * (natFold ds : Nat)))
  else none

def parse_int (s : List Char) : Option Int :=
  if s.isEmpty then none
  else
    match s.dropWhile isStreamSpace with
    | [] => some 0
    | c :: rest =>
      if c = '-' then parse_int_run (-1) rest
      else if c = '+' then parse_int_run 1 rest
      else parse_int_run 1 (c :: rest)

/-- `parse_without_reason` of engine/results.cpp (status is `"passed"`). -/
def parse_without_reason (status : String) (rest : List Char) :
    Except CppExc RawResult :=
  if !rest.isEmpty then
    .ok (.broken (status ++ " cannot have a reason"))
  else if status = "passed" then .ok .passed
  else .error .precondViolated

/-- `parse_with_reason` of engine/results.cpp: statuses that require a
`": <reason>"` suffix. -/
def parse_with_reason (status : String) (rest : List Char) :
    Except CppExc RawResult :=
  if rest.length < 3 || rest.take 2 ≠ (':' :: ' ' :: []) then
    .ok (.broken (status ++ " must be followed by ': <reason>'"))
  else
    let reason := String.mk (rest.drop 2)
    if status = "expected_death" then .ok (.expected_death reason)
    else if status = "expected_failure" then .ok (.expected_failure reason)
    else if status = "expected_timeout" then .ok (.expected_timeout reason)
    else if status = "failed" then .ok (.failed reason)
    else if status = "skipped" then .ok (.skipped reason)
    else .error .precondViolated

/-- The final construction step of `parse_with_reason_and_arg`. -/
def mkWithReasonAndArg (status : String) (arg : Option Int)
    (reason : String) : Except CppExc RawResult :=
  if status = "expected_exit" then .ok (.expected_exit arg reason)
  else if status = "expected_signal" then .ok (.expected_signal arg reason)
  else .error .precondViolated

/-- `parse_with_reason_and_arg` of engine/results.cpp: statuses that take
an optional parenthesised integer argument before the reason.  The dead
`throw engine::format_error` (its guard re-tests `delim == npos` instead
of `delim2`) and the unsigned wrap-around of `delim2 + 1` when `delim2`
is `npos` are transcribed as in the source. -/
def parse_with_reason_and_arg (status : String) (rest : List Char) :
    Except CppExc RawResult :=
  let delim := findColonParen rest
  if delim = npos then
    .ok (.broken ("Invalid format for '" ++ status ++ "' test case result; " ++
                  "must be followed by '[(num)]: <reason>' but found '" ++
                  String.mk rest ++ "'"))
  else if (rest.drop delim).take 1 = ['('] then
    let delim2 := strFind rest (')' :: ':' :: []) delim
    if delim = npos then .error .formatError
    else
      let argstr := (rest.drop (delim + 1)).take (delim2 - delim - 1)
      match parse_int argstr with
      | none =>
        .ok (.broken ("Invalid integer argument '" ++ String.mk argstr ++
                      "' to '" ++ status ++ "' test case result"))
      | some arg =>
        let delimAfter := (delim2 + 1) % 2 ^ 64
        match cppSubstrFrom rest (delimAfter + 2) with
        | .error e => .error e
        | .ok reason => mkWithReasonAndArg status (some arg) (String.mk reason)
  else
    match cppSubstrFrom rest (delim + 2) with
    | .error e => .error e
    | .ok reason => mkWithReasonAndArg status none (String.mk reason)

/-- The status-keyword dispatch of `results::parse` (the `if`/`else if`
chain over the extracted status). -/
def parseDispatch (status : String) (rest : List Char) :
    Except CppExc RawResult :=
  if status = "expected_death" then parse_with_reason status rest
  else if status = "expected_exit" then parse_with_reason_and_arg status rest
  else if status = "expected_failure" then parse_with_reason status rest
  else if status = "expected_signal" then parse_with_reason_and_arg status rest
  else if status = "expected_timeout" then parse_with_reason status rest
  else if status = "failed" then parse_with_reason status rest
  else if status = "passed" then parse_without_reason status rest
  else if status = "skipped" then parse_with_reason status rest
  else .ok (.broken ("Unknown test result '" ++ status ++ "'"))

/-- `results::parse` of engine/results.cpp: reads the whole input stream,
flattens it with `read_lines`, extracts the status keyword (the longest
prefix over `[a-z_]`) and dispatches on it.  A value `.error e` models a
C++ exception escaping the function. -/
def parse (input : List Char) : Except CppExc RawResult :=
  let data := read_lines input
  if data.1 = 0 then .ok (.broken "Empty test result or no new line")
  else if data.1 > 1 then
    .ok (.broken ("Test result contains multiple lines: " ++
                  String.mk data.2))
  else
    let statusChars := data.2.takeWhile isStatusChar
    parseDispatch (String.mk statusChars) (data.2.drop statusChars.length)

/-- `results::parse` on a `String` input. -/
def parseStr (input : String) : Except CppExc RawResult :=
  parse input.data

/-- Whether a parse outcome is the `engine::format_error` exception. -/
def isFormatError : Except CppExc RawResult → Bool
  | .error .formatError => true
  | _ => false

/-! ## Test case identifiers (engine/test_case.cpp) -/

/-- `engine::test_case_id`: the pair of test-program path and case name. -/
structure test_case_id where
  program : String
  name : String
  deriving DecidableEq, Repr

/-- `engine::test_case_id::operator<` exactly as written in
engine/test_case.cpp: `program < id.program || name < id.name`. -/
def test_case_id.lt (a b : test_case_id) : Bool :=
  decide (a.program < b.program) || decide (a.name < b.name)

/-- `engine::test_case_id::operator==`. -/
def test_case_id.eq (a b : test_case_id) : Bool :=
  a.program = b.program && a.name = b.name

/-- The lexicographic strict order on the pair, as the spec describes it. -/
def test_case_id.lexLt (a b : test_case_id) : Bool :=
  decide (a.program < b.program) ||
  (a.program = b.program && decide (a.name < b.name))

/-! ## Final test results and the cleanup composition
(engine/scheduler.cpp, `scheduler_handle::wait_any`) -/

/-- The result types of `model::test_result`. -/
inductive TestResultType where
  | broken
  | expected_failure
  | failed
  | passed
  | skipped
  deriving DecidableEq, Repr

/-- `model::test_result`: a result type plus a reason. -/
structure TestResult where
  type : TestResultType
  reason : String
  deriving DecidableEq, Repr

/-- Modelled from the spec: `model::test_result::good()` (model/test_result.cpp
is not among the repository's files; only its callers are).  Per the spec's
externalization section, a final result that is a failure, broken or skip is
not good. -/
def TestResult.good (r : TestResult) : Bool :=
  match r.type with
  | .passed => true
  | .expected_failure => true
  | .broken => false
  | .failed => false
  | .skipped => false

/-- `handle.status().get().exited() && exitstatus() == EXIT_SUCCESS`. -/
def cleanExit : ProcStatus → Bool
  | .exited code => code = EXIT_SUCCESS
  | _ => false

/-- The cleanup-composition step of `scheduler_handle::wait_any`
(engine/scheduler.cpp lines 1084–1101): once a cleanup routine finishes,
its exit status (`none` when it timed out) is combined with the stored
body result.  Cleanup failures are reported only when the body result was
good. -/
def wait_any_cleanup (body_result : TestResult)
    (cleanup_status : Option ProcStatus) : TestResult :=
  if body_result.good then
    match cleanup_status with
    | none => ⟨.broken, "Test case cleanup timed out"⟩
    | some st =>
      if !cleanExit st then
        ⟨.broken, "Test case cleanup did not terminate successfully"⟩
      else body_result
  else body_result

/-! ## The requirement gate (engine/atf_iface/test_case.cpp,
`atf_iface::test_case::check_requirements`) -/

/-- The per-test requirement metadata consulted by the gate. -/
structure atf_test_case_reqs where
  required_configs : List String
  allowed_architectures : List String
  allowed_platforms : List String
  required_user : String
  required_files : List String
  required_programs : List String
  required_memory : Nat
  deriving Repr

/-- The ambient state the gate queries: the configuration tree
(`is_set`, and the `architecture`/`platform` string nodes), the current
user, the filesystem and the OS memory report. -/
structure ReqEnv where
  test_suite_name : String
  is_set : String → Bool
  architecture : String
  platform : String
  is_root : Bool
  file_exists : String → Bool
  find_in_path : String → Bool
  physical_memory : Nat

/-- `utils::fs::path::is_absolute()`. -/
def isAbsolutePath (p : String) : Bool :=
  p.startsWith "/"

/-- Modelled from the spec: `utils::units::bytes::format()`
(utils/units.cpp is not among the repository's files).  The rendering of
the byte counts inside the memory-check message; the exact rendering is
immaterial to the gate's control flow. -/
def bytesFormat (n : Nat) : String :=
  String.mk (renderNat n)

/-- The `required_configs` loop of `check_requirements`: the special
aliases `unprivileged-user`/`unprivileged_user` are looked up at the
top-level `unprivileged_user` key, everything else under
`test_suites.<suite>.<name>`. -/
def checkConfigsLoop (suite : String) (is_set : String → Bool) :
    List String → Option String
  | [] => none
  | name :: rest =>
    let property :=
      if name = "unprivileged-user" || name = "unprivileged_user" then
        "unprivileged_user"
      else "test_suites." ++ suite ++ "." ++ name
    if !is_set property then
      some ("Required configuration property '" ++ name ++ "' not defined")
    else checkConfigsLoop suite is_set rest

/-- The `required_files` loop of `check_requirements`.  (The source's
`INV(is_absolute())` sanity check is a process abort, excluded by the
theorems' hypothesis that the required files are absolute.) -/
def checkFilesLoop (file_exists : String → Bool) :
    List String → Option String
  | [] => none
  | p :: rest =>
    if !file_exists p then some ("Required file '" ++ p ++ "' not found")
    else checkFilesLoop file_exists rest

/-- The `required_programs` loop of `check_requirements`. -/
def checkProgsLoop (file_exists find_in_path : String → Bool) :
    List String → Option String
  | [] => none
  | p :: rest =>
    if isAbsolutePath p then
      if !file_exists p then
        some ("Required program '" ++ p ++ "' not found")
      else checkProgsLoop file_exists find_in_path rest
    else
      if !find_in_path p then
        some ("Required program '" ++ p ++ "' not found in PATH")
      else checkProgsLoop file_exists find_in_path rest

/-- The `required_user` block of `check_requirements`.  The final branch
models the source's `UNREACHABLE_MSG` abort for a `require.user` value the
metadata parser would have rejected; the theorems exclude it by
hypothesis. -/
def checkUserBlock (required_user : String) (is_root : Bool)
    (is_set : String → Bool) : Option String :=
  if required_user.isEmpty then none
  else if required_user = "root" then
    if !is_root then some "Requires root privileges" else none
  else if required_user = "unprivileged" then
    if is_root && !is_set "unprivileged_user" then
      some ("Requires an unprivileged user but the unprivileged-user " ++
            "configuration variable is not defined")
    else none
  else some "UNREACHABLE: Value of require.user not properly validated"

/-- `atf_iface::test_case::check_requirements`: evaluates the per-test
requirements against the environment, returning the reason of the first
failed block, or the empty string when everything is satisfied.  Each
block transcribes the corresponding block of the source, in source
order. -/
def check_requirements (tc : atf_test_case_reqs) (env : ReqEnv) : String :=
  match checkConfigsLoop env.test_suite_name env.is_set tc.required_configs with
  | some reason => reason
  | none =>
  if !tc.allowed_architectures.isEmpty &&
      !tc.allowed_architectures.contains env.architecture then
    "Current architecture '" ++ env.architecture ++ "' not supported"
  else if !tc.allowed_platforms.isEmpty &&
      !tc.allowed_platforms.contains env.platform then
    "Current platform '" ++ env.platform ++ "' not supported"
  else
  match checkUserBlock tc.required_user env.is_root env.is_set with
  | some reason => reason
  | none =>
  match checkFilesLoop env.file_exists tc.required_files with
  | some reason => reason
  | none =>
  match checkProgsLoop env.file_exists env.find_in_path
      tc.required_programs with
  | some reason => reason
  | none =>
  if tc.required_memory > 0 &&
      (env.physical_memory > 0 &&
       env.physical_memory < tc.required_memory) then
    "Requires " ++ bytesFormat tc.required_memory ++
    " bytes of physical memory but only " ++
    bytesFormat env.physical_memory ++ " available"
  else ""

/-! Spec-side formulation of the gate, following the claim's words: a list
of checks in the claimed order, each yielding the failure reason of its
first failing element, combined by taking the first failure. -/

/-- Spec side: the configuration key a required-config name is looked up
at. -/
def specConfigKey (suite name : String) : String :=
  if name = "unprivileged-user" || name = "unprivileged_user" then
    "unprivileged_user"
  else "test_suites." ++ suite ++ "." ++ name

/-- Spec side, check 1: every required config must be set. -/
def specCheckConfigs (tc : atf_test_case_reqs) (env : ReqEnv) :
    Option String :=
  (tc.required_configs.find? fun name =>
      !env.is_set (specConfigKey env.test_suite_name name)).map
    fun name => "Required configuration property '" ++ name ++ "' not defined"

/-- Spec side, check 2: if `allowed_architectures` is non-empty the current
architecture must be a member. -/
def specCheckArch (tc : atf_test_case_reqs) (env : ReqEnv) : Option String :=
  if tc.allowed_architectures ≠ [] ∧
      env.architecture ∉ tc.allowed_architectures then
    some ("Current architecture '" ++ env.architecture ++ "' not supported")
  else none

/-- Spec side, check 3: same for `allowed_platforms`. -/
def specCheckPlatform (tc : atf_test_case_reqs) (env : ReqEnv) :
    Option String :=
  if tc.allowed_platforms ≠ [] ∧ env.platform ∉ tc.allowed_platforms then
    some ("Current platform '" ++ env.platform ++ "' not supported")
  else none

/-- Spec side, checks 4–5: the required-user constraint. -/
def specCheckUser (tc : atf_test_case_reqs) (env : ReqEnv) : Option String :=
  if tc.required_user = "root" ∧ ¬env.is_root then
    some "Requires root privileges"
  else if tc.required_user = "unprivileged" ∧ env.is_root ∧
      ¬env.is_set "unprivileged_user" then
    some ("Requires an unprivileged user but the unprivileged-user " ++
          "configuration variable is not defined")
  else none

/-- Spec side, check 6: every required file must exist. -/
def specCheckFiles (tc : atf_test_case_reqs) (env : ReqEnv) : Option String :=
  (tc.required_files.find? fun p => !env.file_exists p).map
    fun p => "Required file '" ++ p ++ "' not found"

/-- Spec side, check 7: every required program must exist (absolute paths
on the filesystem, bare names on the PATH). -/
def specCheckProgs (tc : atf_test_case_reqs) (env : ReqEnv) : Option String :=
  (tc.required_programs.find? fun p =>
      if isAbsolutePath p then !env.file_exists p else !env.find_in_path p).map
    fun p =>
      if isAbsolutePath p then "Required program '" ++ p ++ "' not found"
      else "Required program '" ++ p ++ "' not found in PATH"

/-- Spec side, check 8: the memory requirement, passing whenever the OS
reports 0 (unknown) physical memory. -/
def specCheckMemory (tc : atf_test_case_reqs) (env : ReqEnv) :
    Option String :=
  if tc.required_memory > 0 ∧ env.physical_memory > 0 ∧
      env.physical_memory < tc.required_memory then
    some ("Requires " ++ bytesFormat tc.required_memory ++
          " bytes of physical memory but only " ++
          bytesFormat env.physical_memory ++ " available")
  else none

/-- Spec side: the checks in the claimed order. -/
def specChecks (tc : atf_test_case_reqs) (env : ReqEnv) :
    List (Option String) :=
  [specCheckConfigs tc env, specCheckArch tc env, specCheckPlatform tc env,
   specCheckUser tc env, specCheckFiles tc env, specCheckProgs tc env,
   specCheckMemory tc env]

/-- Spec side: the failure reason of the first failing check. -/
def firstFailure (checks : List (Option String)) : Option String :=
  checks.findSome? id

/-- The domain of `require.user` values the metadata parser admits. -/
def validRequiredUser (tc : atf_test_case_reqs) : Prop :=
  tc.required_user = "" ∨ tc.required_user = "root" ∨
  tc.required_user = "unprivileged"

/-! ## Timeouts and the execution plan of a test case
(engine/runner.cpp `run_test_case_safe`, engine/scheduler.cpp
`spawn_test`/`spawn_cleanup`) -/

/-- `utils::datetime::delta`. -/
structure delta where
  seconds : Nat
  useconds : Nat
  deriving DecidableEq, Repr

/-- The metadata of a test case as the engine/runner.cpp path sees it. -/
structure runner_test_case where
  timeout : delta
  has_cleanup : Bool
  deriving Repr

/-- The metadata of a test case as the engine/scheduler.cpp path sees it. -/
structure sched_metadata where
  timeout : delta
  has_cleanup : Bool
  deriving Repr

/-- `scheduler::cleanup_timeout` (engine/scheduler.cpp line 86): the fixed
timeout for every cleanup routine spawned by the scheduler. -/
def cleanup_timeout : delta := ⟨60, 0⟩

/-- The timeout `scheduler_handle::spawn_test` passes to the executor
(engine/scheduler.cpp line 942): the test's metadata timeout. -/
def spawn_test_timeout (md : sched_metadata) : delta :=
  md.timeout

/-- The timeout `scheduler_handle::spawn_cleanup` passes to the executor
(engine/scheduler.cpp line 991): the fixed `cleanup_timeout`, for every
test case. -/
def spawn_cleanup_timeout (_md : sched_metadata) : delta :=
  cleanup_timeout

/-- One forked phase of `run_test_case_safe`: the work directory the child
chdirs into, the stdout/stderr capture files and the wait deadline handed
to `fork_and_wait`. -/
structure phase_spawn where
  cwd : List String
  stdout_file : List String
  stderr_file : List String
  timeout : delta
  deriving Repr

/-- The file and subprocess layout `run_test_case_safe` builds
(engine/runner.cpp lines 304–331): the `run` subdirectory both children
chdir into, the `result.txt` path given to the body, and the two
`fork_and_wait` invocations with their capture files and the test's
timeout.  Paths are lists of components rooted at the per-test temporary
directory's parent. -/
structure run_plan where
  rundir : List String
  result_file : List String
  body : phase_spawn
  cleanup : Option phase_spawn
  deriving Repr

/-- The plan of `run_test_case_safe` for a test case, given the freshly
created work directory. -/
def run_test_case_plan (tc : runner_test_case) (workdir : List String) :
    run_plan :=
  let rundir := workdir ++ ["run"]
  { rundir := rundir
    result_file := workdir ++ ["result.txt"]
    body := { cwd := rundir
              stdout_file := workdir ++ ["stdout.txt"]
              stderr_file := workdir ++ ["stderr.txt"]
              timeout := tc.timeout }
    cleanup :=
      if tc.has_cleanup then
        some { cwd := rundir
               stdout_file := workdir ++ ["cleanup-stdout.txt"]
               stderr_file := workdir ++ ["cleanup-stderr.txt"]
               timeout := tc.timeout }
      else none }

/-! ## The outer exception barrier (engine/runner.cpp
`runner::run_test_case`) -/

/-- `runner::run_test_case`: runs `run_test_case_safe` and catches every
`std::exception` it leaks, converting it into a broken test result.  The
argument models the outcome of `run_test_case_safe`: a result, or an
escaped exception with its `what()` message (such as a fork/pipe/chdir
system failure). -/
def run_test_case (outcome : Except String RawResult) : RawResult :=
  match outcome with
  | .ok result => result
  | .error e => .broken ("The test caused an error in the runtime system: " ++ e)

/-- `results::load` (engine/results.cpp lines 296–305): a file that cannot
be opened yields a broken result naming the path; otherwise the contents
are parsed.  The first argument models whether `std::ifstream` could open
the file. -/
def load (canOpen : Bool) (path : String) (contents : List Char) :
    Except CppExc RawResult :=
  if !canOpen then
    .ok (.broken ("Results file '" ++ path ++ "' cannot be opened"))
  else parse contents

/-! ## Theorems -/

/-- Helper: appending distinct last components yields non-prefix paths. -/
theorem isPrefixOf_append_single_ne {wd : List String} {x y : String}
    (hxy : (x == y) = false) :
    (wd ++ [x]).isPrefixOf (wd ++ [y]) = false := by
  induction wd with
  | nil => simp [List.isPrefixOf, hxy]
  | cons a t ih => simpa [List.isPrefixOf] using ih

/-- C9: the less-than comparison of `engine::test_case_id` is not the
lexicographic order on `(program, name)` and is not antisymmetric: with
`a = ("a", "z")` and `b = ("b", "a")` the implementation reports both
`a < b` and `b < a` (its `name` disjunct ignores how the programs
compare), while the lexicographic order reports only `a < b`. -/
theorem test_case_id_lt_not_antisymmetric :
    test_case_id.lt ⟨"a", "z"⟩ ⟨"b", "a"⟩ = true ∧
    test_case_id.lt ⟨"b", "a"⟩ ⟨"a", "z"⟩ = true ∧
    test_case_id.lexLt ⟨"b", "a"⟩ ⟨"a", "z"⟩ = false ∧
    test_case_id.eq ⟨"a", "z"⟩ ⟨"b", "a"⟩ = false := by
  refine ⟨?_, ?_, ?_, ?_⟩ <;> simp [test_case_id.lt, test_case_id.lexLt,
    test_case_id.eq] <;> decide

/-- C1 (counterexample): reconciling `Failed("the reason")` with the exit
status `Exited(2)` — a nonzero code — does not keep the failure: the
source compares against `EXIT_FAILURE` (1), so code 2 becomes a broken
result. -/
theorem adjust_failed_exited_two :
    adjust (.failed "the reason") (.exited 2) false =
      .broken
        "Failed test case should have reported failure but exited with code 2" ∧
    RawResult.broken
        "Failed test case should have reported failure but exited with code 2" ≠
      RawResult.failed "the reason" ∧
    (2 : Int) ≠ 0 := by
  refine ⟨rfl, ?_, ?_⟩ <;> decide

/-- C1 (amended): for every reason `r` and exit status `s`, reconciling
`Failed(r)` with `s` when the test did not time out keeps `Failed(r)`
exactly when `s` is `Exited(1)` (`EXIT_FAILURE`); for every other status it
returns `Broken("Failed test case should have reported failure but
<status>")`. -/
theorem adjust_failed_characterization (r : String) (s : ProcStatus) :
    (adjust (.failed r) s false = .failed r ↔ s = .exited EXIT_FAILURE) ∧
    (s ≠ .exited EXIT_FAILURE →
      adjust (.failed r) s false =
        .broken ("Failed test case should have reported failure but " ++
                 format_status s)) := by
  cases s with
  | exited c =>
    by_cases hc : c = EXIT_FAILURE
    · subst hc
      simp [adjust, RawResult.isBroken]
    · constructor
      · simp [adjust, RawResult.isBroken, hc]
      · intro _
        simp [adjust, RawResult.isBroken, hc]
  | signaled signo core =>
    constructor
    · simp [adjust, RawResult.isBroken]
    · intro _
      simp [adjust, RawResult.isBroken]
  | unknown =>
    constructor
    · simp [adjust, RawResult.isBroken]
    · intro _
      simp [adjust, RawResult.isBroken]

/-- C2 (counterexample): reconciling the non-broken raw result `Passed`
with the timed-out flag set yields `Broken("Test case timed out")` — not
the phase-specific message `"Test case body timed out"` the claim states:
`results::adjust` has no notion of a phase. -/
theorem adjust_timed_out_message :
    adjust .passed (.exited 0) true = .broken "Test case timed out" ∧
    RawResult.broken "Test case timed out" ≠
      RawResult.broken "Test case body timed out" := by
  refine ⟨rfl, ?_⟩
  decide

/-- C2 (amended): for every raw result that is not `Broken`, reconciling
with the timed-out flag set keeps an `ExpectedTimeout` result unchanged
and turns everything else into `Broken("Test case timed out")` — the same
message for every phase. -/
theorem adjust_timed_out (raw : RawResult) (s : ProcStatus)
    (h : raw.isBroken = false) :
    (raw.isExpectedTimeout = true → adjust raw s true = raw) ∧
    (raw.isExpectedTimeout = false →
      adjust raw s true = .broken "Test case timed out") := by
  unfold adjust
  rw [h]
  constructor
  · intro ht
    simp [ht]
  · intro ht
    simp [ht]

/-- C2 (witness): the amended statement at the concrete raw result
`Passed`. -/
theorem adjust_timed_out_witness :
    (RawResult.passed).isBroken = false ∧
    ((RawResult.passed).isExpectedTimeout = false →
      adjust .passed (.exited 0) true = .broken "Test case timed out") :=
  ⟨rfl, (adjust_timed_out .passed (.exited 0) rfl).2⟩

/-- C3: the cleanup composition of `scheduler_handle::wait_any`.  When the
body result is good: a timed-out cleanup (absent status) yields
`Broken("Test case cleanup timed out")`, a cleanup that does not exit
cleanly with code 0 yields `Broken("Test case cleanup did not terminate
successfully")`, and a clean cleanup keeps the body result.  A body result
that is not good is returned unchanged regardless of the cleanup's
outcome. -/
theorem wait_any_cleanup_composition (body : TestResult)
    (cst : Option ProcStatus) :
    (body.good = false → wait_any_cleanup body cst = body) ∧
    (body.good = true → cst = none →
      wait_any_cleanup body cst = ⟨.broken, "Test case cleanup timed out"⟩) ∧
    (body.good = true → ∀ s, cst = some s → cleanExit s = false →
      wait_any_cleanup body cst =
        ⟨.broken, "Test case cleanup did not terminate successfully"⟩) ∧
    (body.good = true → ∀ s, cst = some s → cleanExit s = true →
      wait_any_cleanup body cst = body) := by
  refine ⟨?_, ?_, ?_, ?_⟩
  · intro hg
    simp [wait_any_cleanup, hg]
  · intro hg hn
    subst hn
    simp [wait_any_cleanup, hg]
  · intro hg s hs hclean
    subst hs
    simp [wait_any_cleanup, hg, hclean]
  · intro hg s hs hclean
    subst hs
    simp [wait_any_cleanup, hg, hclean]

/-- C7 (counterexample): for a test case with the default 300-second
timeout, the scheduler supervises the cleanup phase with the fixed
60-second `cleanup_timeout`, not with the test's declared timeout as the
body is. -/
theorem scheduler_cleanup_timeout_differs :
    spawn_cleanup_timeout ⟨⟨300, 0⟩, true⟩ ≠
      spawn_test_timeout ⟨⟨300, 0⟩, true⟩ ∧
    spawn_cleanup_timeout ⟨⟨300, 0⟩, true⟩ = ⟨60, 0⟩ := by
  refine ⟨?_, rfl⟩
  decide

/-- C7 (amended): in the engine/runner.cpp path both phases are waited on
with the test's declared timeout, while in the engine/scheduler.cpp path
the body uses the test's timeout and the cleanup always uses the fixed
60-second `cleanup_timeout`. -/
theorem phase_timeouts (tc : runner_test_case) (wd : List String)
    (md : sched_metadata) :
    (run_test_case_plan tc wd).body.timeout = tc.timeout ∧
    (∀ ph, (run_test_case_plan tc wd).cleanup = some ph →
      ph.timeout = tc.timeout) ∧
    spawn_test_timeout md = md.timeout ∧
    spawn_cleanup_timeout md = ⟨60, 0⟩ := by
  refine ⟨rfl, ?_, rfl, rfl⟩
  intro ph hph
  by_cases hc : tc.has_cleanup
  · simp [run_test_case_plan, hc] at hph
    simp [← hph]
  · simp [run_test_case_plan, hc] at hph

/-- C8 (counterexample): a fork failure escaping `run_test_case_safe` is
not propagated to the caller of `runner::run_test_case`: it is converted
into the test result `Broken("The test caused an error in the runtime
system: …")`. -/
theorem run_test_case_fork_failure :
    run_test_case (.error "fork(2) failed") =
      .broken
        "The test caused an error in the runtime system: fork(2) failed" :=
  rfl

/-- C8 (amended): `runner::run_test_case` catches every exception leaking
out of the safe execution path — including fork/pipe/chdir system
failures — and converts it into a broken test result with the exception's
message; a normally produced result is returned as is.  No error value
distinct from a test result ever reaches the caller. -/
theorem run_test_case_total (e : String) (r : RawResult) :
    run_test_case (.error e) =
      .broken ("The test caused an error in the runtime system: " ++ e) ∧
    run_test_case (.ok r) = r :=
  ⟨rfl, rfl⟩

/-- C10: for every test case with a cleanup phase, `run_test_case_safe`
starts the body and the cleanup in the identical working directory — the
`run` subdirectory of the per-test temporary directory — while
`result.txt` and the stdout/stderr capture files live directly in the
temporary directory, outside the children's working directory. -/
theorem run_plan_shared_workdir (t : delta) (wd : List String) :
    ∃ ph, (run_test_case_plan ⟨t, true⟩ wd).cleanup = some ph ∧
      ph.cwd = (run_test_case_plan ⟨t, true⟩ wd).body.cwd ∧
      (run_test_case_plan ⟨t, true⟩ wd).body.cwd = wd ++ ["run"] ∧
      (run_test_case_plan ⟨t, true⟩ wd).result_file.dropLast = wd ∧
      (run_test_case_plan ⟨t, true⟩ wd).body.stdout_file.dropLast = wd ∧
      (run_test_case_plan ⟨t, true⟩ wd).body.stderr_file.dropLast = wd ∧
      ((run_test_case_plan ⟨t, true⟩ wd).rundir.isPrefixOf
        (run_test_case_plan ⟨t, true⟩ wd).result_file) = false ∧
      ((run_test_case_plan ⟨t, true⟩ wd).rundir.isPrefixOf
        (run_test_case_plan ⟨t, true⟩ wd).body.stdout_file) = false ∧
      ((run_test_case_plan ⟨t, true⟩ wd).rundir.isPrefixOf
        (run_test_case_plan ⟨t, true⟩ wd).body.stderr_file) = false := by
  refine ⟨_, rfl, rfl, rfl, ?_, ?_, ?_, ?_, ?_, ?_⟩ <;>
    simp [run_test_case_plan, List.dropLast_concat,
          isPrefixOf_append_single_ne]

/-! C6 helper lemmas: each source loop equals its spec-side check. -/

theorem checkConfigsLoop_eq_spec (tc : atf_test_case_reqs) (env : ReqEnv) :
    checkConfigsLoop env.test_suite_name env.is_set tc.required_configs =
      specCheckConfigs tc env := by
  unfold specCheckConfigs
  generalize tc.required_configs = l
  induction l with
  | nil => rfl
  | cons name rest ih =>
    show (if !env.is_set (specConfigKey env.test_suite_name name) then
            some ("Required configuration property '" ++ name ++
                  "' not defined")
          else checkConfigsLoop env.test_suite_name env.is_set rest) = _
    cases hset : env.is_set (specConfigKey env.test_suite_name name) with
    | true => simp [List.find?_cons, hset, ih]
    | false => simp [List.find?_cons, hset]

theorem checkFilesLoop_eq_spec (tc : atf_test_case_reqs) (env : ReqEnv) :
    checkFilesLoop env.file_exists tc.required_files =
      specCheckFiles tc env := by
  unfold specCheckFiles
  generalize tc.required_files = l
  induction l with
  | nil => rfl
  | cons p rest ih =>
    show (if !env.file_exists p then
            some ("Required file '" ++ p ++ "' not found")
          else checkFilesLoop env.file_exists rest) = _
    cases hex : env.file_exists p with
    | true => simp [List.find?_cons, hex, ih]
    | false => simp [List.find?_cons, hex]

theorem checkProgsLoop_eq_spec (tc : atf_test_case_reqs) (env : ReqEnv) :
    checkProgsLoop env.file_exists env.find_in_path tc.required_programs =
      specCheckProgs tc env := by
  unfold specCheckProgs
  generalize tc.required_programs = l
  induction l with
  | nil => rfl
  | cons p rest ih =>
    show (if isAbsolutePath p then
            if !env.file_exists p then
              some ("Required program '" ++ p ++ "' not found")
            else checkProgsLoop env.file_exists env.find_in_path rest
          else
            if !env.find_in_path p then
              some ("Required program '" ++ p ++ "' not found in PATH")
            else checkProgsLoop env.file_exists env.find_in_path rest) = _
    cases habs : isAbsolutePath p with
    | true =>
      cases hex : env.file_exists p with
      | true => simp [List.find?_cons, habs, hex, ih]
      | false => simp [List.find?_cons, habs, hex]
    | false =>
      cases hpath : env.find_in_path p with
      | true => simp [List.find?_cons, habs, hpath, ih]
      | false => simp [List.find?_cons, habs, hpath]

theorem checkUserBlock_eq_spec (tc : atf_test_case_reqs) (env : ReqEnv)
    (hu : validRequiredUser tc) :
    checkUserBlock tc.required_user env.is_root env.is_set =
      specCheckUser tc env := by
  rcases hu with h | h | h <;>
    simp only [checkUserBlock, specCheckUser, h] <;>
    by_cases hr : env.is_root <;>
    by_cases hs : env.is_set "unprivileged_user" <;>
    simp [hr, hs] <;> decide

/-- C6: the requirement gate evaluates its checks in the order
required_configs, allowed_architectures, allowed_platforms, required_user,
required_files, required_programs, required_memory; it returns the failure
reason of the first check that fails (with the unprivileged-user aliases
looked up at the top-level `unprivileged_user` key, and the memory check
passing whenever the OS reports 0 physical memory), and the empty string
when every check passes. -/
theorem check_requirements_first_failure (tc : atf_test_case_reqs)
    (env : ReqEnv) (hu : validRequiredUser tc)
    (hf : ∀ p ∈ tc.required_files, isAbsolutePath p = true) :
    check_requirements tc env =
      (firstFailure (specChecks tc env)).getD "" := by
  unfold check_requirements firstFailure specChecks
  rw [checkConfigsLoop_eq_spec, checkFilesLoop_eq_spec,
      checkProgsLoop_eq_spec, checkUserBlock_eq_spec tc env hu]
  cases hc : specCheckConfigs tc env with
  | some r => simp [List.findSome?]
  | none =>
    simp only [List.findSome?_cons, id]
    by_cases ha : tc.allowed_architectures ≠ [] ∧
        env.architecture ∉ tc.allowed_architectures
    · have : (!tc.allowed_architectures.isEmpty &&
          !tc.allowed_architectures.contains env.architecture) = true := by
        simp [List.isEmpty_iff, ha.1, ha.2]
      rw [if_pos this]
      simp [specCheckArch, ha]
    · have harch : (!tc.allowed_architectures.isEmpty &&
          !tc.allowed_architectures.contains env.architecture) = false := by
        rcases not_and_or.mp ha with h | h
        · simp [List.isEmpty_iff, not_not.mp h]
        · simp [not_not.mp h]
      rw [if_neg (by rw [harch]; exact Bool.false_ne_true)]
      rw [show specCheckArch tc env = none by
        unfold specCheckArch; rw [if_neg ha]]
      by_cases hp : tc.allowed_platforms ≠ [] ∧
          env.platform ∉ tc.allowed_platforms
      · have : (!tc.allowed_platforms.isEmpty &&
            !tc.allowed_platforms.contains env.platform) = true := by
          simp [List.isEmpty_iff, hp.1, hp.2]
        rw [if_pos this]
        simp [specCheckPlatform, hp]
      · have hplat : (!tc.allowed_platforms.isEmpty &&
            !tc.allowed_platforms.contains env.platform) = false := by
          rcases not_and_or.mp hp with h | h
          · simp [List.isEmpty_iff, not_not.mp h]
          · simp [not_not.mp h]
        rw [if_neg (by rw [hplat]; exact Bool.false_ne_true)]
        rw [show specCheckPlatform tc env = none by
          unfold specCheckPlatform; rw [if_neg hp]]
        cases huser : specCheckUser tc env with
        | some r => simp
        | none =>
          simp only [List.findSome?_cons, id]
          cases hfiles : specCheckFiles tc env with
          | some r => simp
          | none =>
            simp only [List.findSome?_cons, id]
            cases hprogs : specCheckProgs tc env with
            | some r => simp
            | none =>
              simp only [List.findSome?_cons, id]
              by_cases hm : tc.required_memory > 0 ∧
                  env.physical_memory > 0 ∧
                  env.physical_memory < tc.required_memory
              · have : (tc.required_memory > 0 &&
                    (env.physical_memory > 0 &&
                     env.physical_memory < tc.required_memory)) = true := by
                  simp [hm.1, hm.2.1, hm.2.2]
                rw [if_pos this]
                simp [specCheckMemory, hm]
              · have hmem : (tc.required_memory > 0 &&
                    (env.physical_memory > 0 &&
                     env.physical_memory < tc.required_memory)) = false := by
                  by_contra hne
                  rw [Bool.not_eq_false] at hne
                  simp only [Bool.and_eq_true, decide_eq_true_eq] at hne
                  exact hm ⟨hne.1, hne.2.1, hne.2.2⟩
                rw [if_neg (by rw [hmem]; exact Bool.false_ne_true)]
                rw [show specCheckMemory tc env = none by
                  unfold specCheckMemory; rw [if_neg hm]]
                rfl

/-- C6 (witness): the gate equality at a concrete metadata/environment
pair with a valid required-user value and absolute required files. -/
theorem check_requirements_first_failure_witness :
    validRequiredUser ⟨["cfg"], ["amd64"], [], "root", [], [], 0⟩ ∧
    check_requirements ⟨["cfg"], ["amd64"], [], "root", [], [], 0⟩
        ⟨"suite", fun _ => false, "amd64", "pc", false, fun _ => true,
         fun _ => true, 0⟩ =
      (firstFailure (specChecks ⟨["cfg"], ["amd64"], [], "root", [], [], 0⟩
        ⟨"suite", fun _ => false, "amd64", "pc", false, fun _ => true,
         fun _ => true, 0⟩)).getD "" := by
  refine ⟨Or.inr (Or.inl rfl), ?_⟩
  exact check_requirements_first_failure _ _ (Or.inr (Or.inl rfl))
    (by intro p hp; simp at hp)

/-! C4 helper lemmas: no code path of the parser produces the
`engine::format_error` exception. -/

theorem parse_without_reason_ne_formatError (st : String) (rest : List Char) :
    isFormatError (parse_without_reason st rest) = false := by
  unfold parse_without_reason
  repeat' split
  all_goals rfl

theorem parse_with_reason_ne_formatError (st : String) (rest : List Char) :
    isFormatError (parse_with_reason st rest) = false := by
  unfold parse_with_reason
  dsimp only
  repeat' split
  all_goals rfl

theorem mkWithReasonAndArg_ne_formatError (st : String) (arg : Option Int)
    (reason : String) :
    isFormatError (mkWithReasonAndArg st arg reason) = false := by
  unfold mkWithReasonAndArg
  repeat' split
  all_goals rfl

theorem cppSubstrFrom_error {s : List Char} {pos : Nat} {e : CppExc}
    (h : cppSubstrFrom s pos = .error e) : e = .outOfRange := by
  unfold cppSubstrFrom at h
  split at h
  · exact (Except.error.injEq .. ▸ h).symm
  · exact absurd h (by simp)

theorem parse_with_reason_and_arg_ne_formatError (st : String)
    (rest : List Char) :
    isFormatError (parse_with_reason_and_arg st rest) = false := by
  unfold parse_with_reason_and_arg
  dsimp only
  repeat' split
  all_goals
    first
      | rfl
      | contradiction
      | exact mkWithReasonAndArg_ne_formatError ..
      | (rename_i e hsub; rw [cppSubstrFrom_error hsub]; rfl)

theorem parseDispatch_ne_formatError (st : String) (rest : List Char) :
    isFormatError (parseDispatch st rest) = false := by
  unfold parseDispatch
  repeat' split
  all_goals
    first
      | rfl
      | exact parse_with_reason_ne_formatError ..
      | exact parse_with_reason_and_arg_ne_formatError ..
      | exact parse_without_reason_ne_formatError ..

theorem parse_ne_formatError (input : List Char) :
    isFormatError (parse input) = false := by
  unfold parse
  dsimp only
  repeat' split
  all_goals
    first
      | rfl
      | exact parseDispatch_ne_formatError ..

/-- C4: the raw-result parser is *not* total: on the single-line input
`"expected_exit:"` (with its terminating newline) `results::parse` raises
`std::out_of_range` from `rest.substr(delim + 2)` — `rest` is `":"` and
`delim + 2 = 2 > 1` — instead of returning a broken result as its
documentation promises.  The explicit `format_error` throw in
`parse_with_reason_and_arg` is indeed unreachable (its guard re-tests the
already-excluded `delim == npos`), and `results::load` on an unopenable
file does return the documented broken result. -/
theorem parse_out_of_range_bug :
    parseStr "expected_exit:\n" = .error .outOfRange ∧
    (∀ s : String, isFormatError (parseStr s) = false) ∧
    (∀ (p : String) (c : List Char),
      load false p c =
        .ok (.broken ("Results file '" ++ p ++ "' cannot be opened"))) := by
  refine ⟨rfl, fun s => parse_ne_formatError s.data, fun p c => ?_⟩
  rfl

/-! C5 helper lemmas: decimal rendering round-trips through `parse_int`. -/

/-- The ten decimal digit characters. -/
def digits10 : List Char := ['0', '1', '2', '3', '4', '5', '6', '7', '8', '9']

theorem digitChar_mem (d : Nat) : digitChar d ∈ digits10 := by
  rcases d with _ | _ | _ | _ | _ | _ | _ | _ | _ | _ <;> simp [digitChar, digits10]

theorem digit_props :
    ∀ c ∈ digits10, isStreamSpace c = false ∧ c ≠ '-' ∧ c ≠ '+' ∧
      isDigitChar c = true ∧ c ≠ ')' ∧ c ≠ '\n' ∧ isStatusChar c = false := by
  decide

theorem digitVal_digitChar (d : Nat) (h : d < 10) :
    digitVal (digitChar d) = d := by
  interval_cases d <;> rfl

theorem renderNatAux_mem {fuel n : Nat} :
    ∀ c ∈ renderNatAux fuel n, c ∈ digits10 := by
  induction fuel generalizing n with
  | zero => simp [renderNatAux]
  | succ fuel ih =>
    intro c hc
    unfold renderNatAux at hc
    split at hc
    · simp at hc
      exact hc ▸ digitChar_mem n
    · rcases List.mem_append.mp hc with h | h
      · exact ih _ h
      · simp at h
        exact h ▸ digitChar_mem (n % 10)

theorem renderNatAux_ne_nil {fuel n : Nat} (h : n < fuel) :
    renderNatAux fuel n ≠ [] := by
  cases fuel with
  | zero => omega
  | succ fuel =>
    unfold renderNatAux
    split
    · simp
    · simp

theorem renderNatAux_length_le {fuel n : Nat} :
    (renderNatAux fuel n).length ≤ fuel := by
  induction fuel generalizing n with
  | zero => simp [renderNatAux]
  | succ fuel ih =>
    unfold renderNatAux
    split
    · simp
    · simp only [List.length_append, List.length_cons, List.length_nil]
      have := ih (n := n / 10)
      omega

theorem natFold_append_digit (xs : List Char) (c : Char) :
    natFold (xs ++ [c]) = natFold xs * 10 + digitVal c := by
  simp [natFold, List.foldl_append]

theorem natFold_renderNatAux {fuel n : Nat} (h : n < fuel) :
    natFold (renderNatAux fuel n) = n := by
  induction fuel generalizing n with
  | zero => omega
  | succ fuel ih =>
    unfold renderNatAux
    split
    · rename_i hn
      show natFold [digitChar n] = n
      have : natFold [digitChar n] = digitVal (digitChar n) := by
        simp [natFold]
      rw [this, digitVal_digitChar n hn]
    · rename_i hn
      rw [natFold_append_digit, ih (by
        have := Nat.div_lt_self (by omega : 0 < n) (by omega : 1 < 10)
        omega), digitVal_digitChar _ (Nat.mod_lt n (by omega))]
      omega

theorem natFold_renderNat (n : Nat) : natFold (renderNat n) = n :=
  natFold_renderNatAux (Nat.lt_succ_self n)

theorem renderNat_mem {n : Nat} : ∀ c ∈ renderNat n, c ∈ digits10 :=
  renderNatAux_mem

theorem renderNat_ne_nil (n : Nat) : renderNat n ≠ [] :=
  renderNatAux_ne_nil (Nat.lt_succ_self n)

theorem renderNat_length_le (n : Nat) : (renderNat n).length ≤ n + 1 :=
  renderNatAux_length_le

/-- A list all of whose elements satisfy the predicate is its own
`takeWhile`. -/
theorem takeWhile_of_all {p : Char → Bool} {l : List Char}
    (h : ∀ c ∈ l, p c = true) : l.takeWhile p = l := by
  induction l with
  | nil => rfl
  | cons c t ih =>
    rw [List.takeWhile_cons, h c (List.mem_cons_self c t)]
    rw [ih fun x hx => h x (List.mem_cons_of_mem c hx)]
    simp

theorem dropWhile_of_head_false {p : Char → Bool} {c : Char} {t : List Char}
    (h : p c = false) : (c :: t).dropWhile p = c :: t := by
  rw [List.dropWhile_cons, h]
  simp

/-- `parse_int_run` over a non-empty all-digit list consumes everything
and yields the (clamped) signed accumulated value. -/
theorem parse_int_run_all_digits {sign : Int} {l : List Char} (hne : l ≠ [])
    (hd : ∀ c ∈ l, c ∈ digits10) :
    parse_int_run sign l = some (clampInt (sign * natFold l)) := by
  unfold parse_int_run
  dsimp only
  rw [takeWhile_of_all fun x hx => (digit_props x (hd x hx)).2.2.2.1]
  rw [List.drop_length]
  rw [if_pos (show ([] : List Char).isEmpty = true from rfl)]
  rw [if_neg (by simpa using hne)]

/-- `parse_int` over a non-empty all-digit list yields the (clamped)
accumulated value. -/
theorem parse_int_digits {l : List Char} (hne : l ≠ [])
    (hd : ∀ c ∈ l, c ∈ digits10) :
    parse_int l = some (clampInt (natFold l)) := by
  rcases l with _ | ⟨c, t⟩
  · exact absurd rfl hne
  · obtain ⟨hcsp, hcminus, hcplus, -, -, -, -⟩ :=
      digit_props c (hd c (by simp))
    unfold parse_int
    rw [if_neg (by simp), dropWhile_of_head_false hcsp]
    show (if c = '-' then parse_int_run (-1) t
          else if c = '+' then parse_int_run 1 t
          else parse_int_run 1 (c :: t)) =
      some (clampInt (natFold (c :: t)))
    rw [if_neg hcminus, if_neg hcplus,
        parse_int_run_all_digits (by simp) hd, one_mul]

/-- `parse_int` round-trips `renderInt` for every value within the range
of `int`. -/
theorem parse_int_renderInt (i : Int) (hmin : INT_MIN ≤ i)
    (hmax : i ≤ INT_MAX) : parse_int (renderInt i) = some i := by
  have hclamp : ∀ v : Int, INT_MIN ≤ v → v ≤ INT_MAX → clampInt v = v := by
    intro v h1 h2
    unfold clampInt
    rw [if_neg (by omega), if_neg (by omega)]
  by_cases hneg : i < 0
  · unfold renderInt
    rw [if_pos hneg]
    unfold parse_int
    rw [if_neg (by simp)]
    rw [dropWhile_of_head_false (by decide : isStreamSpace '-' = false)]
    show (if ('-' : Char) = '-' then parse_int_run (-1) (renderNat (-i).toNat)
          else if ('-' : Char) = '+' then
            parse_int_run 1 (renderNat (-i).toNat)
          else parse_int_run 1 ('-' :: renderNat (-i).toNat)) = some i
    rw [if_pos rfl,
        parse_int_run_all_digits (renderNat_ne_nil _) renderNat_mem,
        natFold_renderNat]
    have htn : ((-i).toNat : Int) = -i := Int.toNat_of_nonneg (by omega)
    rw [htn, show (-1 : Int) * -i = i by ring, hclamp i hmin hmax]
  · unfold renderInt
    rw [if_neg hneg]
    have htn : (i.toNat : Int) = i := Int.toNat_of_nonneg (by omega)
    rw [parse_int_digits (renderNat_ne_nil _) renderNat_mem,
        natFold_renderNat, htn, hclamp i hmin hmax]

/-! C5 helper lemmas: `read_lines` on a single newline-terminated line,
and status-keyword extraction. -/

theorem splitLine_no_newline (l r : List Char) (h : ∀ c ∈ l, c ≠ '\n') :
    splitLine (l ++ '\n' :: r) = (l, some r) := by
  induction l with
  | nil => simp [splitLine]
  | cons c t ih =>
    have hc : c ≠ '\n' := h c (by simp)
    have ih' := ih fun x hx => h x (List.mem_cons_of_mem c hx)
    simp only [List.cons_append, splitLine, if_neg hc, List.append_eq]
    rw [ih']

theorem readLinesAux_step (fuel : Nat) (s : List Char) (count : Nat)
    (acc l r : List Char) (h : splitLine s = (l, some r)) :
    readLinesAux (fuel + 1) s count acc =
      readLinesAux fuel r (count + 1)
        (if count = 0 then l else acc ++ nlMark ++ l) := by
  conv_lhs => rw [readLinesAux]
  rw [h]

theorem readLinesAux_nil (fuel count : Nat) (acc : List Char) :
    readLinesAux (fuel + 1) [] count acc = (count, acc) := by
  unfold readLinesAux
  simp [splitLine]

theorem read_lines_single (l : List Char) (h : ∀ c ∈ l, c ≠ '\n') :
    read_lines (l ++ ['\n']) = (1, l) := by
  unfold read_lines
  rw [show (l ++ ['\n']).length + 1 = (l.length + 1) + 1 by simp]
  rw [readLinesAux_step _ _ _ _ l [] (splitLine_no_newline l [] h)]
  rw [if_pos rfl]
  exact readLinesAux_nil _ _ _

theorem takeWhile_append_cons {p : Char → Bool} (k : List Char) (c : Char)
    (t : List Char) (hk : ∀ x ∈ k, p x = true) (hc : p c = false) :
    (k ++ c :: t).takeWhile p = k := by
  induction k with
  | nil => simp [List.takeWhile_cons, hc]
  | cons a k' ih =>
    simp only [List.cons_append, List.takeWhile_cons, hk a (by simp)]
    rw [ih fun x hx => hk x (List.mem_cons_of_mem a hx)]
    simp

/-- The status extraction of `results::parse` on a keyword line: the
`takeWhile` prefix is the keyword, the remainder starts right after it. -/
theorem parse_keyword (k : String) (rest : List Char)
    (hk : ∀ c ∈ k.data, isStatusChar c = true)
    (hd : ∀ c ∈ rest.take 1, isStatusChar c = false)
    (hnl : ∀ c ∈ k.data ++ rest, c ≠ '\n') :
    parse (k.data ++ rest ++ ['\n']) = parseDispatch k rest := by
  unfold parse
  dsimp only
  rw [show k.data ++ rest ++ ['\n'] = (k.data ++ rest) ++ ['\n'] from rfl]
  rw [read_lines_single _ hnl]
  rw [if_neg (by simp), if_neg (by simp)]
  have hsplit : (k.data ++ rest).takeWhile isStatusChar = k.data := by
    cases rest with
    | nil =>
      rw [List.append_nil]
      exact takeWhile_of_all hk
    | cons c t =>
      exact takeWhile_append_cons k.data c t hk (hd c (by simp))
  rw [hsplit]
  rw [show String.mk k.data = k from rfl]
  congr 1
  rw [List.drop_append_of_le_length (le_refl k.data.length)]
  simp

/-! C5 helper lemmas: the two argument-carrying parse shapes. -/

theorem String_mk_data (s : String) : String.mk s.data = s := rfl

theorem renderInt_mem {a : Int} : ∀ c ∈ renderInt a, c ∈ '-' :: digits10 := by
  intro c hc
  unfold renderInt at hc
  split at hc
  · rcases List.mem_cons.mp hc with h | h
    · simp [h]
    · exact List.mem_cons_of_mem _ (renderNat_mem c h)
  · exact List.mem_cons_of_mem _ (renderNat_mem c hc)

theorem renderInt_ne_closeParen {a : Int} : ∀ c ∈ renderInt a, c ≠ ')' := by
  intro c hc
  rcases List.mem_cons.mp (renderInt_mem c hc) with h | h
  · simp [h]
  · exact (digit_props c h).2.2.2.2.1

theorem renderInt_ne_newline {a : Int} : ∀ c ∈ renderInt a, c ≠ '\n' := by
  intro c hc
  rcases List.mem_cons.mp (renderInt_mem c hc) with h | h
  · simp [h]
  · exact (digit_props c h).2.2.2.2.2.1

theorem renderInt_length_le {a : Int} :
    (renderInt a).length ≤ a.natAbs + 2 := by
  unfold renderInt
  split
  · simp only [List.length_cons]
    have := renderNat_length_le (-a).toNat
    omega
  · have := renderNat_length_le a.toNat
    omega

theorem subIdx_closeParen (D t : List Char)
    (hD : ∀ c ∈ D, c ≠ ')') :
    subIdx [')', ':'] (D ++ ')' :: ':' :: t) = some D.length := by
  induction D with
  | nil =>
    simp only [List.nil_append]
    unfold subIdx
    rw [if_pos (by simp)]
    rfl
  | cons c D' ih =>
    have hc : c ≠ ')' := hD c (by simp)
    have ih' := ih fun x hx => hD x (List.mem_cons_of_mem c hx)
    simp only [List.cons_append]
    unfold subIdx
    rw [if_neg (by simp [hc])]
    rw [ih']
    rfl

/-- `parse_with_reason` on a well-shaped `": <reason>"` remainder. -/
theorem parse_with_reason_colon (st : String) (r : String)
    (hne : r.data ≠ []) :
    parse_with_reason st (':' :: ' ' :: r.data) =
      (if st = "expected_death" then .ok (.expected_death r)
       else if st = "expected_failure" then .ok (.expected_failure r)
       else if st = "expected_timeout" then .ok (.expected_timeout r)
       else if st = "failed" then .ok (.failed r)
       else if st = "skipped" then .ok (.skipped r)
       else .error .precondViolated) := by
  have hlen : 0 < r.data.length := List.length_pos.mpr hne
  unfold parse_with_reason
  rw [if_neg (by
    simp only [List.length_cons, List.take_succ_cons, List.take_zero,
      Bool.or_eq_true, decide_eq_true_eq, not_or]
    constructor
    · omega
    · simp)]
  dsimp only
  simp only [List.drop_succ_cons, List.drop_zero, String_mk_data]

/-- `parse_with_reason_and_arg` on a `": <reason>"` remainder (no
parenthesised argument). -/
theorem parse_arg_colon (st : String) (r : String) :
    parse_with_reason_and_arg st (':' :: ' ' :: r.data) =
      mkWithReasonAndArg st none r := by
  unfold parse_with_reason_and_arg
  dsimp only
  rw [show findColonParen (':' :: ' ' :: r.data) = 0 by
    simp [findColonParen, List.findIdx?_cons]]
  rw [if_neg (by decide)]
  rw [if_neg (by simp)]
  rw [show cppSubstrFrom (':' :: ' ' :: r.data) (0 + 2) = .ok r.data by
    unfold cppSubstrFrom
    rw [if_neg (by simp)]
    simp]

/-- `parse_with_reason_and_arg` on a `"(<int>): <reason>"` remainder. -/
theorem parse_arg_paren (st : String) (a : Int) (r : String)
    (hmin : INT_MIN ≤ a) (hmax : a ≤ INT_MAX) :
    parse_with_reason_and_arg st
        ('(' :: (renderInt a ++ ')' :: ':' :: ' ' :: r.data)) =
      mkWithReasonAndArg st (some a) r := by
  set D := renderInt a with hD
  set rest := '(' :: (D ++ ')' :: ':' :: ' ' :: r.data) with hrest
  have habs : a.natAbs ≤ 2147483648 := by
    unfold INT_MIN at hmin
    unfold INT_MAX at hmax
    omega
  have hlenD : D.length ≤ 2147483650 :=
    le_trans renderInt_length_le (by omega)
  have hfind : findColonParen rest = 0 := by
    rw [hrest]
    simp [findColonParen, List.findIdx?_cons]
  have hsub : subIdx [')', ':'] (D ++ ')' :: ':' :: (' ' :: r.data)) =
      some D.length := subIdx_closeParen D (' ' :: r.data) renderInt_ne_closeParen
  have hfind2 : strFind rest [')', ':'] 0 = D.length + 1 := by
    unfold strFind
    rw [hrest]
    simp only [List.drop_zero]
    rw [show subIdx [')', ':'] ('(' :: (D ++ ')' :: ':' :: ' ' :: r.data)) =
        some (D.length + 1) by
      unfold subIdx
      rw [if_neg (by simp)]
      rw [hsub]
      rfl]
    simp
  unfold parse_with_reason_and_arg
  dsimp only
  rw [hfind]
  rw [if_neg (by decide)]
  rw [if_pos (by rw [hrest]; rfl)]
  rw [hfind2]
  rw [if_neg (by decide)]
  rw [show D.length + 1 - 0 - 1 = D.length by omega]
  rw [show (rest.drop (0 + 1)).take D.length = D by
    rw [hrest]
    simp only [List.drop_succ_cons, List.drop_zero]
    exact List.take_left D _]
  rw [parse_int_renderInt a hmin hmax]
  rw [show (D.length + 1 + 1) % 2 ^ 64 = D.length + 2 from
    Nat.mod_eq_of_lt (by omega)]
  rw [show cppSubstrFrom rest (D.length + 2 + 2) = .ok r.data by
    unfold cppSubstrFrom
    rw [if_neg (by rw [hrest]; simp)]
    rw [hrest]
    rw [show D.length + 2 + 2 = D.length + 3 + 1 by omega]
    rw [List.drop_succ_cons]
    rw [show (D ++ ')' :: ':' :: ' ' :: r.data).drop (D.length + 3) =
        (')' :: ':' :: ' ' :: r.data).drop 3 from List.drop_append 3]
    rfl]

/-! C5: well-formedness and the parse/format round trip. -/

theorem String_data_mk (l : List Char) : (String.mk l).data = l := rfl

/-- A reason string the result-file grammar admits: non-empty and free of
newline characters. -/
def goodReason (r : String) : Bool :=
  !r.data.isEmpty && r.data.all (fun c => c != '\n')

/-- An optional integer argument within the range of `int`. -/
def argInRange : Option Int → Bool
  | none => true
  | some k => decide (INT_MIN ≤ k) && decide (k ≤ INT_MAX)

/-- A well-formed raw result: reasons as the grammar admits them and
arguments within the range of `int`. -/
def wellFormed : RawResult → Bool
  | .broken r => goodReason r
  | .expected_death r => goodReason r
  | .expected_exit a r => argInRange a && goodReason r
  | .expected_failure r => goodReason r
  | .expected_signal a r => argInRange a && goodReason r
  | .expected_timeout r => goodReason r
  | .failed r => goodReason r
  | .passed => true
  | .skipped r => goodReason r

theorem goodReason_ne_nil {r : String} (h : goodReason r = true) :
    r.data ≠ [] := by
  unfold goodReason at h
  rcases Bool.and_eq_true .. |>.mp h with ⟨h1, -⟩
  simpa using h1

theorem goodReason_no_newline {r : String} (h : goodReason r = true) :
    ∀ c ∈ r.data, c ≠ '\n' := by
  unfold goodReason at h
  rcases Bool.and_eq_true .. |>.mp h with ⟨-, h2⟩
  intro c hc
  have := List.all_eq_true.mp h2 c hc
  simpa using this

theorem take_one_head_false {p : Char → Bool} {c : Char} (t : List Char)
    (h : p c = false) : ∀ x ∈ (c :: t).take 1, p x = false := by
  intro x hx
  simp only [List.take_succ_cons, List.take_zero, List.mem_singleton] at hx
  exact hx ▸ h

theorem no_newline_reason_rest {k r : String}
    (hknl : ∀ c ∈ k.data, c ≠ '\n') (hrnl : ∀ c ∈ r.data, c ≠ '\n') :
    ∀ c ∈ k.data ++ (':' :: ' ' :: r.data), c ≠ '\n' := by
  intro c hc
  rcases List.mem_append.mp hc with h | h
  · exact hknl c h
  · rcases List.mem_cons.mp h with h1 | h1
    · subst h1; decide
    · rcases List.mem_cons.mp h1 with h2 | h2
      · subst h2; decide
      · exact hrnl c h2

theorem no_newline_paren_rest {k r : String} {a : Int}
    (hknl : ∀ c ∈ k.data, c ≠ '\n') (hrnl : ∀ c ∈ r.data, c ≠ '\n') :
    ∀ c ∈ k.data ++ ('(' :: (renderInt a ++ ')' :: ':' :: ' ' :: r.data)),
      c ≠ '\n' := by
  intro c hc
  rcases List.mem_append.mp hc with h | h
  · exact hknl c h
  · rcases List.mem_cons.mp h with h1 | h1
    · subst h1; decide
    · rcases List.mem_append.mp h1 with h2 | h2
      · exact renderInt_ne_newline c h2
      · rcases List.mem_cons.mp h2 with h3 | h3
        · subst h3; decide
        · rcases List.mem_cons.mp h3 with h4 | h4
          · subst h4; decide
          · rcases List.mem_cons.mp h4 with h5 | h5
            · subst h5; decide
            · exact hrnl c h5

/-- C5 (amended): for every well-formed raw result other than `Broken`,
parsing the string produced by its `format` operation, followed by the
newline the grammar requires, yields the result again.  (`format` itself
emits no trailing newline, and the `broken` keyword is not recognised by
the parser, which is why the claim as stated fails.) -/
theorem parse_format_roundtrip (raw : RawResult)
    (hw : wellFormed raw = true) (hb : raw.isBroken = false) :
    parseStr (raw.format ++ "\n") = .ok raw := by
  cases raw with
  | broken r => exact absurd hb (by simp [RawResult.isBroken])
  | passed =>
    unfold parseStr
    rw [show (RawResult.passed.format ++ "\n").data =
        "passed".data ++ [] ++ ['\n'] by
      simp [RawResult.format, String.data_append]]
    rw [parse_keyword "passed" [] (by decide)
      (by intro c hc; simp at hc)
      (by intro c hc; simp only [List.append_nil] at hc; revert c; decide)]
    rfl
  | expected_death r =>
    simp only [wellFormed] at hw
    unfold parseStr
    rw [show ((RawResult.expected_death r).format ++ "\n").data =
        "expected_death".data ++ (':' :: ' ' :: r.data) ++ ['\n'] by
      simp [RawResult.format, String.data_append]]
    rw [parse_keyword "expected_death" _ (by decide)
      (take_one_head_false _ (by decide))
      (no_newline_reason_rest (by decide) (goodReason_no_newline hw))]
    rw [show parseDispatch "expected_death" (':' :: ' ' :: r.data) =
        parse_with_reason "expected_death" (':' :: ' ' :: r.data) from rfl]
    rw [parse_with_reason_colon _ _ (goodReason_ne_nil hw)]
    rfl
  | expected_failure r =>
    simp only [wellFormed] at hw
    unfold parseStr
    rw [show ((RawResult.expected_failure r).format ++ "\n").data =
        "expected_failure".data ++ (':' :: ' ' :: r.data) ++ ['\n'] by
      simp [RawResult.format, String.data_append]]
    rw [parse_keyword "expected_failure" _ (by decide)
      (take_one_head_false _ (by decide))
      (no_newline_reason_rest (by decide) (goodReason_no_newline hw))]
    rw [show parseDispatch "expected_failure" (':' :: ' ' :: r.data) =
        parse_with_reason "expected_failure" (':' :: ' ' :: r.data) from rfl]
    rw [parse_with_reason_colon _ _ (goodReason_ne_nil hw)]
    rfl
  | expected_timeout r =>
    simp only [wellFormed] at hw
    unfold parseStr
    rw [show ((RawResult.expected_timeout r).format ++ "\n").data =
        "expected_timeout".data ++ (':' :: ' ' :: r.data) ++ ['\n'] by
      simp [RawResult.format, String.data_append]]
    rw [parse_keyword "expected_timeout" _ (by decide)
      (take_one_head_false _ (by decide))
      (no_newline_reason_rest (by decide) (goodReason_no_newline hw))]
    rw [show parseDispatch "expected_timeout" (':' :: ' ' :: r.data) =
        parse_with_reason "expected_timeout" (':' :: ' ' :: r.data) from rfl]
    rw [parse_with_reason_colon _ _ (goodReason_ne_nil hw)]
    rfl
  | failed r =>
    simp only [wellFormed] at hw
    unfold parseStr
    rw [show ((RawResult.failed r).format ++ "\n").data =
        "failed".data ++ (':' :: ' ' :: r.data) ++ ['\n'] by
      simp [RawResult.format, String.data_append]]
    rw [parse_keyword "failed" _ (by decide)
      (take_one_head_false _ (by decide))
      (no_newline_reason_rest (by decide) (goodReason_no_newline hw))]
    rw [show parseDispatch "failed" (':' :: ' ' :: r.data) =
        parse_with_reason "failed" (':' :: ' ' :: r.data) from rfl]
    rw [parse_with_reason_colon _ _ (goodReason_ne_nil hw)]
    rfl
  | skipped r =>
    simp only [wellFormed] at hw
    unfold parseStr
    rw [show ((RawResult.skipped r).format ++ "\n").data =
        "skipped".data ++ (':' :: ' ' :: r.data) ++ ['\n'] by
      simp [RawResult.format, String.data_append]]
    rw [parse_keyword "skipped" _ (by decide)
      (take_one_head_false _ (by decide))
      (no_newline_reason_rest (by decide) (goodReason_no_newline hw))]
    rw [show parseDispatch "skipped" (':' :: ' ' :: r.data) =
        parse_with_reason "skipped" (':' :: ' ' :: r.data) from rfl]
    rw [parse_with_reason_colon _ _ (goodReason_ne_nil hw)]
    rfl
  | expected_exit a r =>
    simp only [wellFormed, Bool.and_eq_true] at hw
    obtain ⟨harg, hgr⟩ := hw
    cases a with
    | none =>
      unfold parseStr
      rw [show ((RawResult.expected_exit none r).format ++ "\n").data =
          "expected_exit".data ++ (':' :: ' ' :: r.data) ++ ['\n'] by
        simp [RawResult.format, String.data_append]]
      rw [parse_keyword "expected_exit" _ (by decide)
        (take_one_head_false _ (by decide))
        (no_newline_reason_rest (by decide) (goodReason_no_newline hgr))]
      rw [show parseDispatch "expected_exit" (':' :: ' ' :: r.data) =
          parse_with_reason_and_arg "expected_exit" (':' :: ' ' :: r.data)
          from rfl]
      rw [parse_arg_colon]
      rfl
    | some k =>
      simp only [argInRange, Bool.and_eq_true, decide_eq_true_eq] at harg
      unfold parseStr
      rw [show ((RawResult.expected_exit (some k) r).format ++ "\n").data =
          "expected_exit".data ++
            ('(' :: (renderInt k ++ ')' :: ':' :: ' ' :: r.data)) ++ ['\n'] by
        simp [RawResult.format, String.data_append, intToString,
          String_data_mk]]
      rw [parse_keyword "expected_exit" _ (by decide)
        (take_one_head_false _ (by decide))
        (no_newline_paren_rest (by decide) (goodReason_no_newline hgr))]
      rw [show parseDispatch "expected_exit"
            ('(' :: (renderInt k ++ ')' :: ':' :: ' ' :: r.data)) =
          parse_with_reason_and_arg "expected_exit"
            ('(' :: (renderInt k ++ ')' :: ':' :: ' ' :: r.data)) from rfl]
      rw [parse_arg_paren "expected_exit" k r harg.1 harg.2]
      rfl
  | expected_signal a r =>
    simp only [wellFormed, Bool.and_eq_true] at hw
    obtain ⟨harg, hgr⟩ := hw
    cases a with
    | none =>
      unfold parseStr
      rw [show ((RawResult.expected_signal none r).format ++ "\n").data =
          "expected_signal".data ++ (':' :: ' ' :: r.data) ++ ['\n'] by
        simp [RawResult.format, String.data_append]]
      rw [parse_keyword "expected_signal" _ (by decide)
        (take_one_head_false _ (by decide))
        (no_newline_reason_rest (by decide) (goodReason_no_newline hgr))]
      rw [show parseDispatch "expected_signal" (':' :: ' ' :: r.data) =
          parse_with_reason_and_arg "expected_signal" (':' :: ' ' :: r.data)
          from rfl]
      rw [parse_arg_colon]
      rfl
    | some k =>
      simp only [argInRange, Bool.and_eq_true, decide_eq_true_eq] at harg
      unfold parseStr
      rw [show ((RawResult.expected_signal (some k) r).format ++ "\n").data =
          "expected_signal".data ++
            ('(' :: (renderInt k ++ ')' :: ':' :: ' ' :: r.data)) ++ ['\n'] by
        simp [RawResult.format, String.data_append, intToString,
          String_data_mk]]
      rw [parse_keyword "expected_signal" _ (by decide)
        (take_one_head_false _ (by decide))
        (no_newline_paren_rest (by decide) (goodReason_no_newline hgr))]
      rw [show parseDispatch "expected_signal"
            ('(' :: (renderInt k ++ ')' :: ':' :: ' ' :: r.data)) =
          parse_with_reason_and_arg "expected_signal"
            ('(' :: (renderInt k ++ ')' :: ':' :: ' ' :: r.data)) from rfl]
      rw [parse_arg_paren "expected_signal" k r harg.1 harg.2]
      rfl

/-- C5 (counterexample): `parse(format(raw))` is *not* `raw`.  `format`
emits no trailing newline, so even for `Passed` the parser reports the
missing-newline broken result; and a `Broken` result cannot be re-parsed
at all since the parser does not recognise the `broken` keyword. -/
theorem parse_format_not_inverse :
    parseStr (RawResult.passed.format) =
      .ok (.broken "Empty test result or no new line") ∧
    RawResult.broken "Empty test result or no new line" ≠ RawResult.passed ∧
    parseStr ((RawResult.broken "x").format ++ "\n") =
      .ok (.broken "Unknown test result 'broken'") := by
  refine ⟨rfl, ?_, rfl⟩
  decide

/-- C5 (witness): the round trip at the concrete result
`ExpectedExit(Some 5, "the reason")`. -/
theorem parse_format_roundtrip_witness :
    wellFormed (.expected_exit (some 5) "the reason") = true ∧
    parseStr ((RawResult.expected_exit (some 5) "the reason").format ++ "\n") =
      .ok (.expected_exit (some 5) "the reason") :=
  ⟨by decide, parse_format_roundtrip (.expected_exit (some 5) "the reason")
    (by decide) rfl⟩

end Kyua
